import Mathlib

/-
  Shallow embedding of the WebSocket hub/client messaging layer of the
  mookie repository (package `internal/websocket`: hub.go, client.go, and
  the message definitions file).

  Modelling conventions:
  * Go `int` is modelled as `Int`; byte slices as `List Nat`.
  * A Go channel is a `GoChan`: a FIFO buffer plus a `closed` flag.
    `chanSend` returns `none` when the channel is closed, modelling the
    Go runtime panic "send on closed channel"; `chanClose` returns `none`
    on an already-closed channel, modelling the panic "close of closed
    channel".  An unrecovered panic aborts the whole Go process.
  * The JSON layer of `encoding/json` is modelled at the level of the
    wire object: a list of key/value fields.  A `[]byte` field travels as
    a base64 string; the model identifies such a string with the bytes it
    encodes (`JVal.bytes`), and uses `JVal.str` for JSON strings that are
    plain text.  `JVal.num` gives a genuinely ill-typed field value
    (a JSON number where a string is expected), which `json.Unmarshal`
    rejects.  `FramePayload.notJSON` stands for frame bytes that do not
    parse as JSON at all.
  * The network connection is a `Conn` that records the frames written
    so far; `failScript` scripts the outcome of successive write
    attempts (`true` = the write fails), and a closed connection always
    fails its writes, as in gorilla/websocket.
-/

namespace Mookie

/-- Wire-level JSON values as far as the Message envelope is concerned. -/
inductive JVal where
  | str (s : String)
  | bytes (bs : List Nat)
  | num (n : Int)
  | nullv
deriving DecidableEq, Repr

/-- Message structure (message definitions file): `Mode` is tagged
`json:"-"`, `Type` is `json:"type"`, `Payload` is `json:"payload"`,
`ClientID` is `json:"cid,omitempty"`. -/
structure Message where
  mode : Int
  type : String
  payload : List Nat
  clientID : String
deriving DecidableEq, Repr

/-- `MessageTypeError = "error"`. -/
def MessageTypeError : String := "error"

/-- `MessageModeText = 1`. -/
def MessageModeText : Int := 1

/-- `MessageModeBinary = 2`. -/
def MessageModeBinary : Int := 2

/-- gorilla/websocket frame-type constant `TextMessage = 1`. -/
def TextMessage : Int := 1

/-- gorilla/websocket frame-type constant `BinaryMessage = 2`. -/
def BinaryMessage : Int := 2

/-- gorilla/websocket frame-type constant `CloseMessage = 8`. -/
def CloseMessage : Int := 8

/-- gorilla/websocket frame-type constant `PingMessage = 9`. -/
def PingMessage : Int := 9

/-- gorilla/websocket frame-type constant `PongMessage = 10`. -/
def PongMessage : Int := 10

/-- `json.Marshal` of a `Message`: the struct tags emit `type`, then
`payload` (a `[]byte`, transported as base64), then `cid` which
`omitempty` drops when `ClientID` is the empty string; `Mode` carries
the tag `json:"-"` and never appears. -/
def jsonMarshalMessage (m : Message) : List (String × JVal) :=
  [("type", JVal.str m.type), ("payload", JVal.bytes m.payload)] ++
    (if m.clientID = "" then [] else [("cid", JVal.str m.clientID)])

/-- The payload bytes of an inbound data frame, abstracted by how they
parse as JSON. -/
inductive FramePayload where
  | notJSON
  | object (fields : List (String × JVal))
deriving DecidableEq, Repr

/-- Last binding of a key in a JSON object: for a duplicated key,
`json.Unmarshal` keeps the value seen last. -/
def lookupLast (fields : List (String × JVal)) (k : String) : Option JVal :=
  ((fields.filter (fun f => f.1 = k)).getLast?).map Prod.snd

/-- `json.Unmarshal` of frame bytes into a fresh `var msg Message`:
fails (`none`) when the bytes are not JSON or a tagged field holds a
value of the wrong JSON type; a missing or null field leaves the zero
value; unknown keys are ignored; `Mode` (`json:"-"`) keeps its zero
value `0`. -/
def jsonUnmarshalMessage (p : FramePayload) : Option Message :=
  match p with
  | .notJSON => none
  | .object fields =>
    match lookupLast fields "type" with
    | some (.bytes _) => none
    | some (.num _) => none
    | t =>
      match lookupLast fields "payload" with
      | some (.str _) => none
      | some (.num _) => none
      | pl =>
        match lookupLast fields "cid" with
        | some (.bytes _) => none
        | some (.num _) => none
        | cid =>
          some { mode := 0
               , type := match t with | some (.str s) => s | _ => ""
               , payload := match pl with | some (.bytes bs) => bs | _ => []
               , clientID := match cid with | some (.str s) => s | _ => "" }

/-- Bytes of a Go string literal such as `[]byte("Invalid message")`;
for the ASCII literals used in this package, UTF-8 bytes coincide with
code points. -/
def strBytes (s : String) : List Nat :=
  s.data.map Char.toNat

/-- A Go channel: buffered FIFO plus a closed flag.  Capacity blocking is
not modelled (no claim here concerns a full queue). -/
structure GoChan (α : Type) where
  buf : List α
  closed : Bool
deriving DecidableEq, Repr

/-- `ch <- x`: appends to the buffer; on a closed channel the Go runtime
panics ("send on closed channel"), modelled by `none`. -/
def chanSend {α : Type} (ch : GoChan α) (x : α) : Option (GoChan α) :=
  if ch.closed then none else some { ch with buf := ch.buf ++ [x] }

/-- `close(ch)`: seals the channel; closing an already-closed channel
panics ("close of closed channel"), modelled by `none`. -/
def chanClose {α : Type} (ch : GoChan α) : Option (GoChan α) :=
  if ch.closed then none else some { ch with closed := true }

/-- The data carried by one written frame: control frames carry no body,
data frames carry the JSON-marshalled envelope. -/
inductive FrameData where
  | empty
  | json (fields : List (String × JVal))
deriving DecidableEq, Repr

/-- The WebSocket connection, as seen from the writing side: the frames
written so far, a script giving the outcome of each successive write
attempt (`true` = the network write fails), and whether the connection
has been closed. -/
structure Conn where
  written : List (Int × FrameData)
  failScript : List Bool
  closed : Bool
deriving DecidableEq, Repr

/-- `conn.WriteMessage(frameType, data)`: records the frame and returns
`false` (no error) on success; returns `true` (an error) when the
scripted network outcome is a failure or the connection is closed. -/
def connWrite (cn : Conn) (frameType : Int) (data : FrameData) : Conn × Bool :=
  if cn.closed then (cn, true)
  else
    match cn.failScript with
    | [] => ({ cn with written := cn.written ++ [(frameType, data)] }, false)
    | b :: rest =>
      if b then ({ cn with failScript := rest }, true)
      else ({ cn with written := cn.written ++ [(frameType, data)], failScript := rest }, false)

/-- `conn.Close()`. -/
def connCloseOp (cn : Conn) : Conn :=
  { cn with closed := true }

/-- Client (client.go): id, connection (`none` models a nil `*Conn`),
and the two buffered channels `send` and `receive`.  The back-reference
to the hub is kept outside the structure (the hub is modelled
separately). -/
structure Client where
  id : String
  conn : Option Conn
  send : GoChan Message
  receive : GoChan Message
deriving DecidableEq, Repr

/-- `Client.Close` (client.go): returns immediately when the connection
is nil; otherwise closes the connection and then closes both channels in
order.  The connection field is not cleared, so a second call reaches
`close(c.send)` on an already-closed channel: `none` models that panic. -/
def closeClient (c : Client) : Option Client :=
  match c.conn with
  | none => some c
  | some cn =>
    let cn1 := connCloseOp cn
    match chanClose c.send with
    | none => none
    | some s =>
      match chanClose c.receive with
      | none => none
      | some r => some { c with conn := some cn1, send := s, receive := r }

/-- `Client.handleDataMessage` (client.go): on `json.Unmarshal` failure,
sends a `MessageTypeError` Message with payload "Invalid message" and
the frame's mode onto this client's own `send` channel and returns nil;
on success, stamps `ClientID` with the client's id and `Mode` with the
frame type and sends the message onto `receive`.  `none` models a panic
of the channel send. -/
def handleDataMessage (c : Client) (messageType : Int) (payload : FramePayload) :
    Option Client :=
  match jsonUnmarshalMessage payload with
  | none =>
    (chanSend c.send
        { mode := messageType, type := MessageTypeError
          , payload := strBytes "Invalid message", clientID := "" }).map
      (fun s => { c with send := s })
  | some msg =>
    (chanSend c.receive { msg with clientID := c.id, mode := messageType }).map
      (fun r => { c with receive := r })

/-- `Client.handleMessage` (client.go): text and binary frames go to
`handleDataMessage`; a close frame returns the error "close message
received"; a ping writes a pong control frame back (surfacing the write
error); a pong and every other frame type fall through to `return nil`.
The result pairs the updated client with the returned Go error
(`none` = nil); the outer `none` models a panic. -/
def handleMessage (c : Client) (messageType : Int) (payload : FramePayload) :
    Option (Client × Option String) :=
  if messageType = TextMessage ∨ messageType = BinaryMessage then
    (handleDataMessage c messageType payload).map (fun c1 => (c1, none))
  else if messageType = CloseMessage then
    some (c, some "close message received")
  else if messageType = PingMessage then
    match c.conn with
    | none => none
    | some cn =>
      let r := connWrite cn PongMessage FrameData.empty
      some ({ c with conn := some r.1 }, if r.2 then some "write error" else none)
  else
    some (c, none)

/-- The in-loop behaviour of `Client.readPump` (client.go) on a finite
script of inbound frames: each frame goes through `handleMessage`; a
non-nil handler error ends the loop (the deferred cleanup then runs);
`none` models a panic inside the handler. -/
def readPumpLoop (c : Client) : List (Int × FramePayload) → Option Client
  | [] => some c
  | (mt, p) :: rest =>
    match handleMessage c mt p with
    | none => none
    | some (c1, some _) => some c1
    | some (c1, none) => readPumpLoop c1 rest

/-- One iteration of `Client.writePump` (client.go) on a dequeued
message: both switch branches marshal the full envelope (which cannot
fail for this struct) and call `conn.WriteMessage`, binary mode choosing
a binary frame and every other mode the text-frame default.  The
source assigns the write's error to `err` without ever reading it, so
the step keeps only the connection state. -/
def writePumpStep (cn : Conn) (msg : Message) : Conn :=
  if msg.mode = MessageModeBinary then
    (connWrite cn BinaryMessage (FrameData.json (jsonMarshalMessage msg))).1
  else
    (connWrite cn TextMessage (FrameData.json (jsonMarshalMessage msg))).1

/-- `Client.writePump` (client.go): `for msg := range c.send`, applied to
the finite list of messages the channel delivers. -/
def writePump (cn : Conn) : List Message → Conn
  | [] => cn
  | msg :: rest => writePump (writePumpStep cn msg) rest

/-- A `*Client` pointer as stored in the hub's membership slice;
equality is pointer identity. -/
abbrev ClientRef := Nat

/-- Hub (hub.go): the membership slice.  The mutex only serialises
access and has no sequential content. -/
structure Hub where
  clients : List ClientRef
deriving DecidableEq, Repr

/-- `Hub.AddClient` (hub.go): error "client cannot be nil" on a nil
argument, otherwise append to the membership slice. -/
def addClient (hb : Hub) (client : Option ClientRef) : Option String × Hub :=
  match client with
  | none => (some "client cannot be nil", hb)
  | some c => (none, { hb with clients := hb.clients ++ [c] })

/-- Removal of the first occurrence, as the loop in `Hub.RemoveClient`
does with its `break` after splicing index `i` out. -/
def removeFirst (l : List ClientRef) (c : ClientRef) : List ClientRef :=
  match l with
  | [] => []
  | x :: xs => if x = c then xs else x :: removeFirst xs c

/-- `Hub.RemoveClient` (hub.go): returns unchanged on nil; otherwise
removes the first entry equal to the argument (no-op when absent). -/
def removeClient (hb : Hub) (client : Option ClientRef) : Hub :=
  match client with
  | none => hb
  | some c => { hb with clients := removeFirst hb.clients c }

/-- `Hub.Broadcast` (hub.go), after the snapshot copy: one goroutine per
snapshot entry performs `c.Writer() <- message`.  Each list entry is
that goroutine's effect on the client's send channel; `none` means the
send panicked (send on closed channel), and an unrecovered goroutine
panic aborts the entire process. -/
def broadcastDeliveries (snapshot : List Client) (m : Message) :
    List (Option (GoChan Message)) :=
  snapshot.map (fun c => chanSend c.send m)

/-- Frame type chosen by the write pump for a message mode: binary mode
selects a binary frame, every other value the text-frame default. -/
def frameKind (mode : Int) : Int :=
  if mode = MessageModeBinary then BinaryMessage else TextMessage

/-- A started client with open channels and a healthy connection. -/
def openClientA : Client :=
  { id := "a", conn := some ⟨[], [], false⟩, send := ⟨[], false⟩, receive := ⟨[], false⟩ }

/-- A client that has been closed: connection closed, both channels
sealed (exactly the state `closeClient` leaves behind). -/
def sealedClientB : Client :=
  { id := "b", conn := some ⟨[], [], true⟩, send := ⟨[], true⟩, receive := ⟨[], true⟩ }

/-- A broadcast message. -/
def msgHello : Message :=
  { mode := 1, type := "announcement", payload := strBytes "hi", clientID := "" }

/-- A text-mode message. -/
def msgA : Message := { mode := 1, type := "a", payload := [], clientID := "" }

/-- A second text-mode message. -/
def msgB : Message := { mode := 1, type := "b", payload := [], clientID := "" }

/-- A binary-mode message. -/
def msgBinW : Message := { mode := 2, type := "bin", payload := [7], clientID := "" }

/-- A message with unset mode. -/
def msgTextW : Message := { mode := 0, type := "txt", payload := [], clientID := "" }

/-- A freshly-constructed client with an open connection and channels. -/
def clientC4 : Client :=
  { id := "u", conn := some ⟨[], [], false⟩, send := ⟨[], false⟩, receive := ⟨[], false⟩ }

/-- The state `closeClient` produces from `clientC4`. -/
def clientC4closed : Client :=
  { id := "u", conn := some ⟨[], [], true⟩, send := ⟨[], true⟩, receive := ⟨[], true⟩ }

end Mookie

namespace Mookie

/-- C5: serializing a Message and deserializing the result preserves
`type`, `payload` and `clientID` (the fresh struct's mode is the zero
value); the wire body never holds a `mode` key and does not depend on
`mode`; and the `cid` key is present exactly when `clientID` is
non-empty. -/
theorem message_wire_roundtrip (m : Message) :
    jsonUnmarshalMessage (.object (jsonMarshalMessage m)) =
        some { mode := 0, type := m.type, payload := m.payload, clientID := m.clientID } ∧
    ((jsonMarshalMessage m).map Prod.fst).contains "mode" = false ∧
    (∀ k, jsonMarshalMessage { m with mode := k } = jsonMarshalMessage m) ∧
    ((jsonMarshalMessage m).map Prod.fst).contains "cid" = !(m.clientID == "") := by
  by_cases h : m.clientID = "" <;>
    simp [jsonMarshalMessage, jsonUnmarshalMessage, lookupLast, h]

/-- C8: AddClient on nil returns an error and leaves membership
unchanged; AddClient on a non-nil client returns no error and appends
exactly that one entry; adding the same client twice yields two
membership entries. -/
theorem addClient_spec (hb : Hub) (c : ClientRef) :
    addClient hb none = (some "client cannot be nil", hb) ∧
    addClient hb (some c) = (none, { clients := hb.clients ++ [c] }) ∧
    ((addClient ((addClient hb (some c)).2) (some c)).2).clients = hb.clients ++ [c, c] := by
  refine ⟨rfl, rfl, ?_⟩
  simp [addClient]

/-- C1 (code bug): in a broadcast snapshot holding an open client and a
closed client, the dispatch for the closed client is a send on a closed
channel — a panic (`none`), which unrecovered aborts the whole process;
the failure is not swallowed as the spec requires. -/
theorem broadcast_sealed_client_panics :
    broadcastDeliveries [openClientA, sealedClientB] msgHello =
      [some ⟨[msgHello], false⟩, none] := rfl

/-- C2 (code bug): with a send queue holding two messages and a
connection whose first write attempt fails, the write pump still writes
the second message's frame — the write error is assigned to `err` but
never checked, so the loop does not exit after a failed write. -/
theorem writePump_continues_after_write_failure :
    writePump { written := [], failScript := [true], closed := false } [msgA, msgB] =
      { written := [(TextMessage,
          FrameData.json [("type", JVal.str "b"), ("payload", JVal.bytes [])])],
        failScript := [], closed := false } := rfl

/-- C4 (counterexample): Close on a fresh started client succeeds and
leaves the closed state, but a second Close on that already-closed
client faults (`none`): the connection field is never cleared, so the
second call reaches `close` on an already-closed channel and panics —
refuting "a repeated Close on an already-closed client does not fault". -/
theorem close_repeat_faults_cx :
    closeClient clientC4 = some clientC4closed ∧ closeClient clientC4closed = none :=
  ⟨rfl, rfl⟩

/-- C4 (amended): Close on a client whose connection is absent is a
no-op; Close on a client with a connection and open queues closes the
connection and seals both queues; but a repeated Close on an
already-closed client faults (panic on double channel close). -/
theorem close_behaviour_amended (c : Client) :
    (c.conn = none → closeClient c = some c) ∧
    (∀ cn, c.conn = some cn → c.send.closed = false → c.receive.closed = false →
      closeClient c = some { c with
          conn := some (connCloseOp cn),
          send := { c.send with closed := true },
          receive := { c.receive with closed := true } }) ∧
    (∀ cn, c.conn = some cn → c.send.closed = true → closeClient c = none) := by
  refine ⟨?_, ?_, ?_⟩
  · intro h
    simp [closeClient, h]
  · intro cn h hs hr
    simp [closeClient, h, chanClose, hs, hr]
  · intro cn h hs
    simp [closeClient, h, chanClose, hs]

/-- Witness for `close_behaviour_amended` at concrete clients. -/
theorem close_behaviour_amended_witness :
    closeClient clientC4 =
        some { clientC4 with
            conn := some (connCloseOp ⟨[], [], false⟩),
            send := { clientC4.send with closed := true },
            receive := { clientC4.receive with closed := true } } ∧
    closeClient clientC4closed = none := by
  constructor
  · exact (close_behaviour_amended clientC4).2.1 ⟨[], [], false⟩ rfl rfl rfl
  · exact (close_behaviour_amended clientC4closed).2.2 ⟨[], [], true⟩ rfl rfl

/-- One successful step of the write pump on a healthy connection:
the frame kind follows the message's mode and the marshalled envelope
is appended to the frames written. -/
theorem writePumpStep_ok (w : List (Int × FrameData)) (m : Message) :
    writePumpStep ⟨w, [], false⟩ m =
      ⟨w ++ [(frameKind m.mode, FrameData.json (jsonMarshalMessage m))], [], false⟩ := by
  by_cases hm : m.mode = MessageModeBinary <;>
    simp [writePumpStep, connWrite, frameKind, hm]

/-- C6: on a connection whose writes all succeed, the write pump writes
one frame per queued message, in queue (FIFO) order, each frame's kind
chosen by the message's mode (binary mode gives a binary frame, any
other mode the text default) and carrying the serialized envelope. -/
theorem writePump_fifo_frame_kind (cn : Conn) (msgs : List Message)
    (h1 : cn.failScript = []) (h2 : cn.closed = false) :
    (writePump cn msgs).written =
      cn.written ++
        msgs.map (fun m => (frameKind m.mode, FrameData.json (jsonMarshalMessage m))) := by
  obtain ⟨w, fs, cl⟩ := cn
  simp only at h1 h2
  subst h1
  subst h2
  induction msgs generalizing w with
  | nil => simp [writePump]
  | cons m rest ih =>
    rw [writePump, writePumpStep_ok, ih]
    simp

/-- Witness for `writePump_fifo_frame_kind`: a binary-mode and an
unset-mode message on a fresh healthy connection. -/
theorem writePump_fifo_frame_kind_witness :
    (writePump ⟨[], [], false⟩ [msgBinW, msgTextW]).written =
      ([] : List (Int × FrameData)) ++
        [msgBinW, msgTextW].map
          (fun m => (frameKind m.mode, FrameData.json (jsonMarshalMessage m))) :=
  writePump_fifo_frame_kind ⟨[], [], false⟩ [msgBinW, msgTextW] rfl rfl

/-- C7: an inbound data frame whose payload decodes as the envelope is
enqueued on the receive queue with `clientID` overwritten by the
client's id and `mode` set to the incoming frame kind; the send queue
and connection are untouched and the handler returns nil. -/
theorem decode_success_stamps_and_enqueues (c : Client) (mt : Int) (p : FramePayload)
    (m : Message)
    (hmt : mt = TextMessage ∨ mt = BinaryMessage)
    (hp : jsonUnmarshalMessage p = some m)
    (hr : c.receive.closed = false) :
    handleMessage c mt p =
      some ({ c with receive :=
          { buf := c.receive.buf ++ [{ m with clientID := c.id, mode := mt }]
          , closed := false } }, none) := by
  rw [handleMessage, if_pos hmt]
  simp [handleDataMessage, hp, chanSend, hr]

/-- Witness for `decode_success_stamps_and_enqueues`: a text frame
carrying a well-formed envelope arriving at an open client. -/
theorem decode_success_stamps_and_enqueues_witness :
    handleMessage openClientA TextMessage (.object [("type", JVal.str "chat")]) =
      some ({ openClientA with receive :=
          { buf := openClientA.receive.buf ++
              [{ ({ mode := 0, type := "chat", payload := [], clientID := "" } : Message) with
                  clientID := openClientA.id, mode := TextMessage }]
          , closed := false } }, none) :=
  decode_success_stamps_and_enqueues openClientA TextMessage
    (.object [("type", JVal.str "chat")])
    { mode := 0, type := "chat", payload := [], clientID := "" }
    (Or.inl rfl) rfl rfl

/-- C3: an inbound data frame whose payload fails to decode puts exactly
one `"error"`-typed Message onto the client's own send queue, leaves the
receive queue and the connection untouched, returns nil (the read pump
keeps reading), and a subsequent well-formed data frame is still
processed normally (stamped and enqueued on the receive queue). -/
theorem decode_failure_error_notice (c : Client) (mt mt2 : Int) (p p2 : FramePayload)
    (m : Message)
    (hmt : mt = TextMessage ∨ mt = BinaryMessage)
    (hmt2 : mt2 = TextMessage ∨ mt2 = BinaryMessage)
    (hp : jsonUnmarshalMessage p = none)
    (hp2 : jsonUnmarshalMessage p2 = some m)
    (hs : c.send.closed = false)
    (hr : c.receive.closed = false) :
    ∃ c1,
      handleMessage c mt p = some (c1, none) ∧
      c1.send.buf = c.send.buf ++
        [{ mode := mt, type := MessageTypeError,
           payload := strBytes "Invalid message", clientID := "" }] ∧
      c1.receive = c.receive ∧
      c1.conn = c.conn ∧
      handleMessage c1 mt2 p2 =
        some ({ c1 with receive :=
            { buf := c.receive.buf ++ [{ m with clientID := c.id, mode := mt2 }],
              closed := false } }, none) := by
  refine ⟨{ c with send :=
      { buf := c.send.buf ++
          [{ mode := mt, type := MessageTypeError,
             payload := strBytes "Invalid message", clientID := "" }],
        closed := false } }, ?_, rfl, rfl, rfl, ?_⟩
  · rw [handleMessage, if_pos hmt]
    simp [handleDataMessage, hp, chanSend, hs]
  · rw [handleMessage, if_pos hmt2]
    simp [handleDataMessage, hp2, chanSend, hr]

/-- Witness for `decode_failure_error_notice`: a text frame whose bytes
are not JSON, followed by a binary frame with a well-formed envelope. -/
theorem decode_failure_error_notice_witness :
    ∃ c1,
      handleMessage openClientA TextMessage .notJSON = some (c1, none) ∧
      c1.send.buf = openClientA.send.buf ++
        [{ mode := TextMessage, type := MessageTypeError,
           payload := strBytes "Invalid message", clientID := "" }] ∧
      c1.receive = openClientA.receive ∧
      c1.conn = openClientA.conn ∧
      handleMessage c1 BinaryMessage (.object [("type", JVal.str "chat")]) =
        some ({ c1 with receive :=
            { buf := openClientA.receive.buf ++
                [{ ({ mode := 0, type := "chat", payload := [], clientID := "" } : Message) with
                    clientID := openClientA.id, mode := BinaryMessage }],
              closed := false } }, none) :=
  decode_failure_error_notice openClientA TextMessage BinaryMessage .notJSON
    (.object [("type", JVal.str "chat")])
    { mode := 0, type := "chat", payload := [], clientID := "" }
    (Or.inl rfl) (Or.inr rfl) rfl rfl rfl rfl

/-- A list missing an element is unchanged by first-occurrence removal. -/
theorem removeFirst_not_mem (l : List ClientRef) (c : ClientRef) (h : c ∉ l) :
    removeFirst l c = l := by
  induction l with
  | nil => rfl
  | cons x xs ih =>
    rw [List.mem_cons, not_or] at h
    rw [removeFirst, if_neg (fun he => h.1 he.symm), ih h.2]

/-- First-occurrence removal splices out exactly the first match and
keeps the rest in order. -/
theorem removeFirst_append (l1 l2 : List ClientRef) (c : ClientRef) (h : c ∉ l1) :
    removeFirst (l1 ++ c :: l2) c = l1 ++ l2 := by
  induction l1 with
  | nil => simp [removeFirst]
  | cons x xs ih =>
    rw [List.mem_cons, not_or] at h
    rw [List.cons_append, removeFirst, if_neg (fun he => h.1 he.symm), ih h.2,
      List.cons_append]

/-- C9: RemoveClient is a no-op on nil and on a client not in the
membership; on a present client it removes exactly the first matching
entry and preserves the relative order of the remaining entries (so a
duplicated client keeps its later occurrence). -/
theorem removeClient_spec (hb : Hub) (c : ClientRef) :
    removeClient hb none = hb ∧
    (c ∉ hb.clients → removeClient hb (some c) = hb) ∧
    (∀ l1 l2, c ∉ l1 → hb.clients = l1 ++ c :: l2 →
      (removeClient hb (some c)).clients = l1 ++ l2) := by
  refine ⟨rfl, ?_, ?_⟩
  · intro h
    simp [removeClient, removeFirst_not_mem hb.clients c h]
  · intro l1 l2 h1 h2
    simp [removeClient, h2, removeFirst_append l1 l2 c h1]

/-- Witness for `removeClient_spec`: a membership holding client 5
twice; one removal keeps exactly the later occurrence, in order, and a
nil removal changes nothing. -/
theorem removeClient_spec_witness :
    (removeClient ⟨[5, 7, 5, 9]⟩ (some 5)).clients = [7, 5, 9] ∧
    removeClient ⟨[5, 7, 5, 9]⟩ none = ⟨[5, 7, 5, 9]⟩ := by
  constructor
  · have h := (removeClient_spec ⟨[5, 7, 5, 9]⟩ 5).2.2 [] [7, 5, 9] (by decide) rfl
    simpa using h
  · exact (removeClient_spec ⟨[5, 7, 5, 9]⟩ 5).1

/-- C10: a frame whose type is none of text, binary, close, ping or pong
is silently ignored: the handler returns nil with the client unchanged
(no enqueue on either queue, no connection write), and the read pump
goes on to the remaining frames. -/
theorem unknown_frame_ignored (c : Client) (mt : Int) (p : FramePayload)
    (rest : List (Int × FramePayload))
    (h1 : mt ≠ TextMessage) (h2 : mt ≠ BinaryMessage) (h8 : mt ≠ CloseMessage)
    (h9 : mt ≠ PingMessage) (h10 : mt ≠ PongMessage) :
    handleMessage c mt p = some (c, none) ∧
    readPumpLoop c ((mt, p) :: rest) = readPumpLoop c rest := by
  have hm : handleMessage c mt p = some (c, none) := by
    simp [handleMessage, h1, h2, h8, h9]
  exact ⟨hm, by simp [readPumpLoop, hm]⟩

/-- Witness for `unknown_frame_ignored`: frame type 42 at an open
client, followed by one well-formed text frame. -/
theorem unknown_frame_ignored_witness :
    handleMessage openClientA 42 .notJSON = some (openClientA, none) ∧
    readPumpLoop openClientA ((42, .notJSON) :: [(TextMessage, .notJSON)]) =
      readPumpLoop openClientA [(TextMessage, .notJSON)] :=
  unknown_frame_ignored openClientA 42 .notJSON [(TextMessage, .notJSON)]
    (by decide) (by decide) (by decide) (by decide) (by decide)

end Mookie
